import Mathlib

/-!
Verification of the BigQuery-to-GCS export script (`run_export.py`).

The script is embedded shallowly: external collaborators (warehouse,
object storage, load-job service, wall clock) are an oracle `World`,
and `main` returns the list of observable events (log lines,
collaborator calls, `sys.exit` calls) together with the process exit
code.  Python exceptions are modelled by `Fault`: `Fault.exception`
stands for any subclass of `Exception`, while `Fault.systemExit`
stands for `SystemExit`, which in Python does NOT derive from
`Exception` and therefore passes through an `except Exception` block.
-/

namespace RunExport

/-- Log levels of the `logging` module as used by the script. -/
inductive Level where
  | debug
  | info
  | warning
  | error
deriving DecidableEq

/-- Observable events of one run: log lines, calls to the external
collaborators, and `sys.exit` calls. -/
inductive Event where
  | log (lvl : Level) (msg : String)
  | queryCall (sql : String)
  | uploadCall (bucket objectPath data contentType : String)
  | loadSubmit (stmt location : String)
  | exitCall (code : Nat)
deriving DecidableEq

/-- Python exception model: `exception` is any `Exception` subclass,
`systemExit` is `SystemExit` (a `BaseException` that is NOT an
`Exception`, so `except Exception` does not catch it). -/
inductive Fault where
  | exception (msg : String)
  | systemExit (code : Nat)
deriving DecidableEq

/-- Raw command line: each flag either present with a value or absent. -/
structure RawArgs where
  source_project_id : Option String
  destination_project_id : Option String
  bucket_name : Option String
  dataset_name : Option String
  output_file_type : Option String
  query_filter : Option String
deriving DecidableEq

/-- Parsed configuration (the attributes of the argparse namespace). -/
structure Args where
  source_project_id : String
  destination_project_id : String
  bucket_name : String
  dataset_name : String
  output_file_type : String
  query_filter : String
deriving DecidableEq

/-- In-memory result set (`pandas.DataFrame`): a column schema and rows. -/
structure DataFrame where
  columns : List String
  rows : List (List String)
deriving DecidableEq

/-- Wall-clock timestamp fields, as produced by `datetime.now()`. -/
structure Timestamp where
  year : Nat
  month : Nat
  day : Nat
  hour : Nat
  minute : Nat
  second : Nat
deriving DecidableEq

/-- The oracle for every external collaborator: the single
`datetime.now()` snapshot taken at line 66, and the outcomes of the
query (`bq_client.query(...).to_dataframe()`), the upload
(`blob.upload_from_string`), and the load job (submission plus
`res.result()`, which raises if the job failed). -/
structure World where
  now : Timestamp
  queryResult : String → Except String DataFrame
  uploadResult : String → String → String → Except String Unit
  loadResult : String → Except String Unit

/-- Model of `parse_arguments` (lines 26–43): the four `required=True` flags must
be present, `--output-file-type` defaults to `"export"`, `--query-filter`
defaults to `""`.  On a missing required flag argparse prints a usage
error and raises `SystemExit(2)`. -/
def parse_arguments (raw : RawArgs) : Except Fault Args :=
  match raw.source_project_id, raw.destination_project_id,
        raw.bucket_name, raw.dataset_name with
  | some sp, some dp, some bn, some dn =>
      .ok ⟨sp, dp, bn, dn, raw.output_file_type.getD "export",
           raw.query_filter.getD ""⟩
  | _, _, _, _ => .error (.systemExit 2)

/-- Decimal digit character. -/
def digitChar (n : Nat) : Char := Char.ofNat (48 + n)

/-- Two-digit zero-padded decimal rendering, as `%m`, `%d`, `%H`, `%M`,
`%S` produce for their in-range field values. -/
def pad2 (n : Nat) : List Char := [digitChar (n / 10 % 10), digitChar (n % 10)]

/-- Four-digit zero-padded decimal rendering, as `%Y` produces for
four-digit years. -/
def pad4 (n : Nat) : List Char :=
  [digitChar (n / 1000 % 10), digitChar (n / 100 % 10),
   digitChar (n / 10 % 10), digitChar (n % 10)]

/-- Model of `datetime.now().strftime("%Y%m%d_%H%M%S")` (line 66),
field-wise over the snapshot. -/
def strftimeNow (t : Timestamp) : String :=
  ⟨pad4 t.year ++ pad2 t.month ++ pad2 t.day ++
    ('_' :: (pad2 t.hour ++ pad2 t.minute ++ pad2 t.second))⟩

/-- The object path (line 67):
`f"{DATASET_NAME}/{OUTPUT_FILE_TYPE}/{OUTPUT_FILE_TYPE}_{current_datetime}.csv"`. -/
def buildObjectPath (dataset outputType ts : String) : String :=
  dataset ++ "/" ++ outputType ++ "/" ++ outputType ++ "_" ++ ts ++ ".csv"

/-- The SELECT statement (lines 71–83), with the filter string
interpolated verbatim when non-empty. -/
def buildQuery (sp dn oft qf : String) : String :=
  if qf ≠ "" then
    "\n            SELECT *\n            FROM `" ++ sp ++ "." ++ dn ++
      "." ++ oft ++ "`\n            WHERE " ++ qf ++ "\n            "
  else
    "\n            SELECT *\n            FROM `" ++ sp ++ "." ++ dn ++
      "." ++ oft ++ "`\n            "

/-- A single-quote character (ASCII 39), used inside the load statement. -/
def sq : String := ⟨[Char.ofNat 39]⟩

/-- The load statement (lines 133–139):
`LOAD DATA OVERWRITE ... FROM FILES (format = 'CSV', uris = ['gs://...'])`. -/
def buildLoadStatement (dp dn oft bn objectPath : String) : String :=
  "\n            LOAD DATA OVERWRITE `" ++ dp ++ "." ++ dn ++ "." ++ oft ++
    "`\n            FROM FILES (\n                format = " ++ sq ++ "CSV" ++
    sq ++ ",\n                uris = [" ++ sq ++ "gs://" ++ bn ++ "/" ++
    objectPath ++ sq ++ "]\n            );\n        "

/-- Comma-joined CSV record. -/
def commaJoin : List String → String
  | [] => ""
  | [x] => x
  | x :: xs => x ++ "," ++ commaJoin xs

/-- Model of `df.to_csv(buffer, index=False)` (line 103), from pandas'
documented contract: a header row of the column names, then one row per
record, each line terminated by a newline, and no index column. -/
def to_csv (df : DataFrame) : String :=
  commaJoin df.columns ++ "\n" ++
    String.join (df.rows.map (fun r => commaJoin r ++ "\n"))

/-- The object path of one run, derived once from the single snapshot. -/
def objectPath (args : Args) (w : World) : String :=
  buildObjectPath args.dataset_name args.output_file_type (strftimeNow w.now)

/-- The SELECT statement of one run. -/
def theQuery (args : Args) : String :=
  buildQuery args.source_project_id args.dataset_name
    args.output_file_type args.query_filter

/-- The load statement of one run, built from the same object path. -/
def loadQueryOf (args : Args) (w : World) : String :=
  buildLoadStatement args.destination_project_id args.dataset_name
    args.output_file_type args.bucket_name (objectPath args w)

/-- The configuration log line (lines 60–63). -/
def configMsg (args : Args) : String :=
  "Configuration - Source Project: " ++ args.source_project_id ++
    ", Destination Project: " ++ args.destination_project_id ++
    ", Bucket: " ++ args.bucket_name ++ ", Dataset: " ++ args.dataset_name ++
    ", Output Type: " ++ args.output_file_type

/-- The filter-branch log line (lines 77 and 83). -/
def filterMsg (qf : String) : String :=
  if qf ≠ "" then "Using query with filter: " ++ qf
  else "Using query without filter"

/-- The first log line of `main` (line 46), emitted before the `try`. -/
def startEv : Event := .log .info "Starting BigQuery to GCS export script"

/-- Events from successful argument parsing up to the query call
(lines 51–94). -/
def preQueryEvents (args : Args) (w : World) : List Event :=
  [ .log .info "Command line arguments parsed successfully",
    .log .info (configMsg args),
    .log .info ("Generated output filename: " ++ objectPath args w),
    .log .info (filterMsg args.query_filter),
    .log .info "Initializing BigQuery client for source project",
    .log .info "BigQuery client initialized successfully",
    .log .info "Executing BigQuery query...",
    .log .debug ("Query: " ++ theQuery args),
    .queryCall (theQuery args) ]

/-- The warning of line 98, emitted exactly when the row count is zero. -/
def warnEvents (df : DataFrame) : List Event :=
  if df.rows.length = 0 then
    [.log .warning "Query returned 0 rows - proceeding with empty dataset"]
  else []

/-- Events from a successful query up to the upload call (lines 95–120). -/
def queryOkEvents (args : Args) (w : World) (df : DataFrame) : List Event :=
  [ .log .info ("Query executed successfully - returned " ++
      toString df.rows.length ++ " rows") ]
  ++ warnEvents df
  ++ [ .log .info "Converting DataFrame to CSV format",
       .log .info ("CSV conversion completed - data size: " ++
         toString (to_csv df).length ++ " characters"),
       .log .info "Initializing Cloud Storage client for destination project",
       .log .info "Cloud Storage client initialized successfully",
       .log .info ("Accessing bucket: " ++ args.bucket_name),
       .log .info ("Uploading CSV to gs://" ++ args.bucket_name ++ "/" ++
         objectPath args w ++ "..."),
       .uploadCall args.bucket_name (objectPath args w) (to_csv df) "text/csv" ]

/-- Events from a successful upload up to the load-job submission
(lines 121–146), including the fixed `job_config.location`. -/
def uploadOkEvents (args : Args) (w : World) : List Event :=
  [ .log .info "CSV upload to GCS completed successfully!",
    .log .info ("File available at: gs://" ++ args.bucket_name ++ "/" ++
      objectPath args w),
    .log .info "Preparing final load query to destination BigQuery table",
    .log .debug ("Job config location set to: " ++ "us-central1"),
    .log .info "BigQuery destination client initialized successfully",
    .log .info "Executing final load query to BigQuery destination table",
    .log .debug ("Load query: " ++ loadQueryOf args w),
    .loadSubmit (loadQueryOf args w) "us-central1" ]

/-- The inner `except` handler around the load job (lines 154–157):
two error logs and `sys.exit(1)`. -/
def loadFailEvents (m : String) : List Event :=
  [ .log .error ("CRITICAL: Final load query failed: " ++ m),
    .log .error "Script execution failed due to final query failure",
    .exitCall 1 ]

/-- The success tail after the load job (lines 151–159). -/
def loadOkEvents (args : Args) : List Event :=
  [ .log .info "Final load query executed successfully!",
    .log .info ("Data successfully loaded into table: " ++
      args.destination_project_id ++ "." ++ args.dataset_name ++ "." ++
      args.output_file_type),
    .log .info "BigQuery to GCS export script completed successfully!" ]

/-- The outer `except Exception` handler (lines 161–164): error log,
traceback log, `sys.exit(1)`. -/
def outerFailEvents (m : String) : List Event :=
  [ .log .error ("Script failed with error: " ++ m),
    .log .error "Full exception traceback:",
    .exitCall 1 ]

/-- The body of the `try` block of `main` (lines 48–159): the events it
emits and, if it terminates abnormally, the propagating fault. -/
def mainTry (raw : RawArgs) (w : World) : List Event × Option Fault :=
  match parse_arguments raw with
  | .error f => ([], some f)
  | .ok args =>
    match w.queryResult (theQuery args) with
    | .error m => (preQueryEvents args w, some (.exception m))
    | .ok df =>
      match w.uploadResult args.bucket_name (objectPath args w) (to_csv df) with
      | .error m => (preQueryEvents args w ++ queryOkEvents args w df,
                     some (.exception m))
      | .ok _ =>
        match w.loadResult (loadQueryOf args w) with
        | .error m => (preQueryEvents args w ++ queryOkEvents args w df ++
                         uploadOkEvents args w ++ loadFailEvents m,
                       some (.systemExit 1))
        | .ok _ => (preQueryEvents args w ++ queryOkEvents args w df ++
                      uploadOkEvents args w ++ loadOkEvents args,
                    none)

/-- Model of `main` (lines 45–164) plus process termination: a normal return
exits with code 0; a `SystemExit` is not caught by `except Exception`
and becomes the process exit code; any other exception is caught by the
outer handler, logged, and converted to `sys.exit(1)`. -/
def main (raw : RawArgs) (w : World) : List Event × Nat :=
  match mainTry raw w with
  | (evts, none) => (startEv :: evts, 0)
  | (evts, some (.systemExit c)) => (startEv :: evts, c)
  | (evts, some (.exception m)) =>
      (startEv :: (evts ++ outerFailEvents m), 1)

/-! ### Collaborator calls in a trace -/

/-- Kinds of collaborator calls: warehouse query, storage upload,
load-job submission. -/
inductive CKind where
  | q
  | u
  | l
deriving DecidableEq

/-- The collaborator-call kind of an event, if it is one. -/
def ckind : Event → Option CKind
  | .queryCall _ => some .q
  | .uploadCall _ _ _ _ => some .u
  | .loadSubmit _ _ => some .l
  | _ => none

/-- The sequence of collaborator-call kinds in a trace. -/
def collabKinds (t : List Event) : List CKind := t.filterMap ckind

/-- A required command-line flag is absent. -/
def missingRequired (raw : RawArgs) : Prop :=
  raw.source_project_id = none ∨ raw.destination_project_id = none ∨
    raw.bucket_name = none ∨ raw.dataset_name = none

/-! ### Concrete fixtures -/

def ts0 : Timestamp := ⟨2026, 10, 12, 9, 30, 0⟩

def df0 : DataFrame := ⟨["a"], [["1"]]⟩

def dfEmpty : DataFrame := ⟨["a", "b"], []⟩

def wAllOk : World :=
  ⟨ts0, fun _ => .ok df0, fun _ _ _ => .ok (), fun _ => .ok ()⟩

def wQueryFail : World :=
  ⟨ts0, fun _ => .error "query failed", fun _ _ _ => .ok (), fun _ => .ok ()⟩

def wUploadFail : World :=
  ⟨ts0, fun _ => .ok df0, fun _ _ _ => .error "upload failed", fun _ => .ok ()⟩

def wLoadFail : World :=
  ⟨ts0, fun _ => .ok df0, fun _ _ _ => .ok (), fun _ => .error "load failed"⟩

def wEmptyOk : World :=
  ⟨ts0, fun _ => .ok dfEmpty, fun _ _ _ => .ok (), fun _ => .ok ()⟩

def raw0 : RawArgs :=
  ⟨some "proj", some "dest", some "bkt", some "sales", none, none⟩

def rawMissing : RawArgs :=
  ⟨none, some "dest", some "bkt", some "sales", none, none⟩

def args0 : Args := ⟨"proj", "dest", "bkt", "sales", "export", ""⟩

/-! ### Substring occurrence over character lists -/

/-- Predicate `begins w l`: `w` is an initial segment of `l`. -/
def begins : List Char → List Char → Bool
  | [], _ => true
  | _ :: _, [] => false
  | a :: as, b :: bs => a == b && begins as bs

/-- Predicate `occursIn w l`: `w` occurs contiguously somewhere in `l`. -/
def occursIn (w : List Char) : List Char → Bool
  | [] => begins w []
  | c :: l => begins w (c :: l) || occursIn w l

/-- The characters of the SQL keyword `WHERE`. -/
def whereChars : List Char := ['W', 'H', 'E', 'R', 'E']

/-- Shape check for `%Y%m%d_%H%M%S` output: eight digits, an
underscore, six digits. -/
def tsShape : List Char → Bool
  | [y1, y2, y3, y4, m1, m2, d1, d2, us, h1, h2, mi1, mi2, s1, s2] =>
      ([y1, y2, y3, y4, m1, m2, d1, d2].all Char.isDigit) && us == '_' &&
        ([h1, h2, mi1, mi2, s1, s2].all Char.isDigit)
  | _ => false

/-- Is the event a load-job submission? -/
def isLoadSubmit : Event → Bool
  | .loadSubmit _ _ => true
  | _ => false

/-- Is the event a `sys.exit` call? -/
def isExitCall : Event → Bool
  | .exitCall _ => true
  | _ => false

/-- Is the event an ERROR-level log line? -/
def isErrorLog : Event → Bool
  | .log .error _ => true
  | _ => false

/-- Does the event assert in the log that the destination-table
overwrite succeeded (either success message of lines 151–152)? -/
def assertsLoadSuccess : Event → Bool
  | .log _ msg =>
      begins ("Final load query executed successfully!" : String).data
        msg.data ||
      begins ("Data successfully loaded into table: " : String).data msg.data
  | _ => false

/-! ### Trace-shape lemmas: the five possible runs -/

theorem main_parseFail {raw : RawArgs} (w : World)
    (h : parse_arguments raw = .error (.systemExit 2)) :
    main raw w = ([startEv], 2) := by
  simp [main, mainTry, h]

theorem main_queryFail {raw : RawArgs} {w : World} {args : Args} {m : String}
    (h : parse_arguments raw = .ok args)
    (hq : w.queryResult (theQuery args) = .error m) :
    main raw w = (startEv :: (preQueryEvents args w ++ outerFailEvents m), 1) := by
  simp [main, mainTry, h, hq]

theorem main_uploadFail {raw : RawArgs} {w : World} {args : Args}
    {df : DataFrame} {m : String}
    (h : parse_arguments raw = .ok args)
    (hq : w.queryResult (theQuery args) = .ok df)
    (hu : w.uploadResult args.bucket_name (objectPath args w) (to_csv df) =
      .error m) :
    main raw w = (startEv :: ((preQueryEvents args w ++ queryOkEvents args w df)
      ++ outerFailEvents m), 1) := by
  simp [main, mainTry, h, hq, hu]

theorem main_loadFail {raw : RawArgs} {w : World} {args : Args}
    {df : DataFrame} {m : String}
    (h : parse_arguments raw = .ok args)
    (hq : w.queryResult (theQuery args) = .ok df)
    (hu : w.uploadResult args.bucket_name (objectPath args w) (to_csv df) = .ok ())
    (hl : w.loadResult (loadQueryOf args w) = .error m) :
    main raw w = (startEv :: (preQueryEvents args w ++ queryOkEvents args w df ++
      uploadOkEvents args w ++ loadFailEvents m), 1) := by
  simp [main, mainTry, h, hq, hu, hl]

theorem main_loadOk {raw : RawArgs} {w : World} {args : Args} {df : DataFrame}
    (h : parse_arguments raw = .ok args)
    (hq : w.queryResult (theQuery args) = .ok df)
    (hu : w.uploadResult args.bucket_name (objectPath args w) (to_csv df) = .ok ())
    (hl : w.loadResult (loadQueryOf args w) = .ok ()) :
    main raw w = (startEv :: (preQueryEvents args w ++ queryOkEvents args w df ++
      uploadOkEvents args w ++ loadOkEvents args), 0) := by
  simp [main, mainTry, h, hq, hu, hl]

theorem parse_total (raw : RawArgs) :
    (∃ args, parse_arguments raw = .ok args) ∨
    parse_arguments raw = .error (.systemExit 2) := by
  unfold parse_arguments
  rcases raw with ⟨sp, dp, bn, dn, oft, qf⟩
  cases sp <;> cases dp <;> cases bn <;> cases dn <;> simp

theorem collabKinds_warn (df : DataFrame) : collabKinds (warnEvents df) = [] := by
  unfold collabKinds warnEvents
  split <;> rfl

theorem ckind_of_warn {df : DataFrame} : ∀ e ∈ warnEvents df, ckind e = none := by
  intro e he
  unfold warnEvents at he
  split at he
  · simp at he
    subst he
    rfl
  · simp at he

theorem parse_of_missing {raw : RawArgs} (h : missingRequired raw) :
    parse_arguments raw = .error (.systemExit 2) := by
  rcases raw with ⟨sp, dp, bn, dn, oft, qf⟩
  unfold parse_arguments
  cases sp <;> cases dp <;> cases bn <;> cases dn <;>
    simp_all [missingRequired]

/-! ### The SELECT statement and its WHERE clause -/

theorem begins_seg : ∀ (w : List Char) (c : Char), c ∉ w →
    ∀ a b : List Char, begins w (a ++ c :: b) = begins w a := by
  intro w
  induction w with
  | nil => intro c hc a b; rfl
  | cons x xs ih =>
    intro c hc a b
    cases a with
    | nil =>
      have hxc : (x == c) = false := by
        simp only [beq_eq_false_iff_ne]
        intro h
        exact hc (h ▸ List.mem_cons_self x xs)
      simp [begins, hxc]
    | cons y as =>
      have hc' : c ∉ xs := fun h => hc (List.mem_cons_of_mem x h)
      simp [begins, ih c hc' as b]

/-- An occurrence of `w` cannot cross a character `c` absent from `w`:
searching `a ++ c :: b` is searching `a` and `b` separately. -/
theorem occursIn_seg (w : List Char) (c : Char) (hc : c ∉ w) :
    ∀ a b : List Char,
      occursIn w (a ++ c :: b) = (occursIn w a || occursIn w b) := by
  intro a
  induction a with
  | nil =>
    intro b
    show occursIn w (c :: b) = (occursIn w [] || occursIn w b)
    have h0 : begins w (c :: b) = begins w [] := begins_seg w c hc [] b
    simp [occursIn, h0]
  | cons x a ih =>
    intro b
    show (begins w (x :: (a ++ c :: b)) || occursIn w (a ++ c :: b)) = _
    have h1 : begins w ((x :: a) ++ c :: b) = begins w (x :: a) :=
      begins_seg w c hc (x :: a) b
    rw [show x :: (a ++ c :: b) = (x :: a) ++ c :: b from rfl, h1, ih b]
    show _ = ((begins w (x :: a) || occursIn w a) || occursIn w b)
    rw [Bool.or_assoc]

/-- The characters of the no-filter SELECT statement, with the
backquote delimiters around the table reference made explicit. -/
theorem buildQuery_data (sp dn oft : String) :
    (buildQuery sp dn oft "").data =
      ("\n            SELECT *\n            FROM " : String).data ++
        Char.ofNat 96 :: (sp.data ++ '.' :: (dn.data ++ '.' :: (oft.data ++
          Char.ofNat 96 :: ("\n            " : String).data))) := by
  show ("\n            SELECT *\n            FROM `" ++ sp ++ "." ++ dn ++
      "." ++ oft ++ "`\n            ").data = _
  simp only [String.data_append]
  simp [List.append_assoc]

/-- The no-filter SELECT statement contains no `WHERE`, provided the
interpolated identifiers do not themselves contain one. -/
theorem buildQuery_noWhere (sp dn oft : String)
    (h1 : occursIn whereChars sp.data = false)
    (h2 : occursIn whereChars dn.data = false)
    (h3 : occursIn whereChars oft.data = false) :
    occursIn whereChars (buildQuery sp dn oft "").data = false := by
  rw [buildQuery_data]
  have hbq : (Char.ofNat 96) ∉ whereChars := by decide
  have hdot : ('.' : Char) ∉ whereChars := by decide
  rw [occursIn_seg whereChars _ hbq, occursIn_seg whereChars _ hdot,
    occursIn_seg whereChars _ hdot, occursIn_seg whereChars _ hbq]
  rw [h1, h2, h3]
  rw [show occursIn whereChars
    ("\n            SELECT *\n            FROM " : String).data = false from
    by decide]
  rw [show occursIn whereChars ("\n            " : String).data = false from
    by decide]
  rfl

/-- For a non-empty filter, the generated SQL is the no-filter SQL with
the `WHERE` clause appended, the filter interpolated verbatim. -/
theorem buildQuery_append_filter (sp dn oft qf : String) (h : qf ≠ "") :
    buildQuery sp dn oft qf =
      buildQuery sp dn oft "" ++ "WHERE " ++ qf ++ "\n            " := by
  unfold buildQuery
  rw [if_pos h, if_neg (by simp)]
  apply String.ext
  simp only [String.data_append]
  simp [List.append_assoc]

/-! ### CSV serialization of an empty result set -/

theorem commaJoin_nl (cols : List String)
    (h : ∀ c ∈ cols, c.data.count '\n' = 0) :
    (commaJoin cols).data.count '\n' = 0 := by
  induction cols with
  | nil => rfl
  | cons x xs ih =>
    cases xs with
    | nil => exact h x (List.mem_cons_self x [])
    | cons y ys =>
      show ((x ++ "," ++ commaJoin (y :: ys)).data.count '\n') = 0
      rw [String.data_append, String.data_append, List.count_append,
        List.count_append]
      rw [h x (by simp), ih (fun c hc => h c (List.mem_cons_of_mem x hc))]
      rfl

theorem to_csv_empty (df : DataFrame) (h : df.rows = []) :
    to_csv df = commaJoin df.columns ++ "\n" := by
  unfold to_csv
  rw [h]
  show commaJoin df.columns ++ "\n" ++ "" = _
  rw [String.append_empty]

theorem to_csv_empty_nl (df : DataFrame) (h : df.rows = [])
    (hc : ∀ c ∈ df.columns, c.data.count '\n' = 0) :
    (to_csv df).data.count '\n' = 1 := by
  rw [to_csv_empty df h, String.data_append, List.count_append]
  rw [commaJoin_nl df.columns hc]
  rfl

/-! ### Membership helpers -/

theorem mem_warnEvents_iff {df : DataFrame} {e : Event} :
    e ∈ warnEvents df ↔ df.rows.length = 0 ∧
      e = Event.log .warning
        "Query returned 0 rows - proceeding with empty dataset" := by
  unfold warnEvents
  split <;> simp_all

theorem uploadCall_mem {raw : RawArgs} {w : World} {args : Args}
    (h : parse_arguments raw = .ok args) {b p d c : String}
    (hm : Event.uploadCall b p d c ∈ (main raw w).1) :
    b = args.bucket_name ∧ p = objectPath args w := by
  rcases hq : w.queryResult (theQuery args) with m | df
  · rw [main_queryFail h hq] at hm
    simp [preQueryEvents, outerFailEvents, startEv] at hm
  · rcases hu : w.uploadResult args.bucket_name (objectPath args w)
      (to_csv df) with m | u
    · rw [main_uploadFail h hq hu] at hm
      simp [preQueryEvents, queryOkEvents, outerFailEvents, startEv,
        mem_warnEvents_iff] at hm
      exact ⟨hm.1, hm.2.1⟩
    · rcases hl : w.loadResult (loadQueryOf args w) with m | v
      · rw [main_loadFail h hq (by cases u; exact hu) hl] at hm
        simp [preQueryEvents, queryOkEvents, uploadOkEvents, loadFailEvents,
          startEv, mem_warnEvents_iff] at hm
        exact ⟨hm.1, hm.2.1⟩
      · rw [main_loadOk h hq (by cases u; exact hu) (by cases v; exact hl)] at hm
        simp [preQueryEvents, queryOkEvents, uploadOkEvents, loadOkEvents,
          startEv, mem_warnEvents_iff] at hm
        exact ⟨hm.1, hm.2.1⟩

theorem loadSubmit_mem {raw : RawArgs} {w : World} {args : Args}
    (h : parse_arguments raw = .ok args) {s loc : String}
    (hm : Event.loadSubmit s loc ∈ (main raw w).1) :
    s = loadQueryOf args w ∧ loc = "us-central1" := by
  rcases hq : w.queryResult (theQuery args) with m | df
  · rw [main_queryFail h hq] at hm
    simp [preQueryEvents, outerFailEvents, startEv] at hm
  · rcases hu : w.uploadResult args.bucket_name (objectPath args w)
      (to_csv df) with m | u
    · rw [main_uploadFail h hq hu] at hm
      simp [preQueryEvents, queryOkEvents, outerFailEvents, startEv,
        mem_warnEvents_iff] at hm
    · rcases hl : w.loadResult (loadQueryOf args w) with m | v
      · rw [main_loadFail h hq (by cases u; exact hu) hl] at hm
        simp [preQueryEvents, queryOkEvents, uploadOkEvents, loadFailEvents,
          startEv, mem_warnEvents_iff] at hm
        exact ⟨hm.1, hm.2⟩
      · rw [main_loadOk h hq (by cases u; exact hu) (by cases v; exact hl)] at hm
        simp [preQueryEvents, queryOkEvents, uploadOkEvents, loadOkEvents,
          startEv, mem_warnEvents_iff] at hm
        exact ⟨hm.1, hm.2⟩

theorem digitChar_mod_isDigit (n : Nat) :
    (digitChar (n % 10)).isDigit = true := by
  have h : n % 10 < 10 := Nat.mod_lt _ (by decide)
  have hall : ∀ d, d < 10 → (digitChar d).isDigit = true := by decide
  exact hall _ h

/-- The formatted timestamp always has the `YYYYMMDD_HHMMSS` shape. -/
theorem tsShape_strftime (t : Timestamp) :
    tsShape (strftimeNow t).data = true := by
  show tsShape (pad4 t.year ++ pad2 t.month ++ pad2 t.day ++
    ('_' :: (pad2 t.hour ++ pad2 t.minute ++ pad2 t.second))) = true
  simp only [pad4, pad2]
  simp [tsShape, digitChar_mod_isDigit]

/-! ### Filters over the trace chunks -/

theorem als_start : [startEv].filter assertsLoadSuccess = [] := rfl

theorem als_pre (args : Args) (w : World) :
    (preQueryEvents args w).filter assertsLoadSuccess = [] := by
  unfold preQueryEvents filterMsg
  split <;> rfl

theorem als_qok (args : Args) (w : World) (df : DataFrame) :
    (queryOkEvents args w df).filter assertsLoadSuccess = [] := by
  unfold queryOkEvents warnEvents
  split <;> rfl

theorem als_upok (args : Args) (w : World) :
    (uploadOkEvents args w).filter assertsLoadSuccess = [] := rfl

theorem als_fail (m : String) :
    (loadFailEvents m).filter assertsLoadSuccess = [] := rfl

theorem errl_pre (args : Args) (w : World) :
    (preQueryEvents args w).filter isErrorLog = [] := rfl

theorem errl_qok (args : Args) (w : World) (df : DataFrame) :
    (queryOkEvents args w df).filter isErrorLog = [] := by
  unfold queryOkEvents warnEvents
  split <;> rfl

theorem errl_upok (args : Args) (w : World) :
    (uploadOkEvents args w).filter isErrorLog = [] := rfl

theorem errl_fail (m : String) :
    (loadFailEvents m).filter isErrorLog =
      [Event.log .error ("CRITICAL: Final load query failed: " ++ m),
       Event.log .error "Script execution failed due to final query failure"] :=
  rfl

theorem exitc_pre (args : Args) (w : World) :
    (preQueryEvents args w).filter isExitCall = [] := rfl

theorem exitc_qok (args : Args) (w : World) (df : DataFrame) :
    (queryOkEvents args w df).filter isExitCall = [] := by
  unfold queryOkEvents warnEvents
  split <;> rfl

theorem exitc_upok (args : Args) (w : World) :
    (uploadOkEvents args w).filter isExitCall = [] := rfl

theorem exitc_fail (m : String) :
    (loadFailEvents m).filter isExitCall = [Event.exitCall 1] := rfl

theorem subm_pre (args : Args) (w : World) :
    (preQueryEvents args w).filter isLoadSubmit = [] := rfl

theorem subm_qok (args : Args) (w : World) (df : DataFrame) :
    (queryOkEvents args w df).filter isLoadSubmit = [] := by
  unfold queryOkEvents warnEvents
  split <;> rfl

theorem subm_upok (args : Args) (w : World) :
    (uploadOkEvents args w).filter isLoadSubmit =
      [Event.loadSubmit (loadQueryOf args w) "us-central1"] := rfl

theorem subm_fail (m : String) :
    (loadFailEvents m).filter isLoadSubmit = [] := rfl

/-! ### Claims -/

/-- Claim C9. Control flows strictly forward through the stages: in every
run the sequence of collaborator calls (query, upload, load submission)
is an initial segment of query-then-upload-then-load — each call happens
at most once, in that order, and no stage is re-entered after a failure. -/
theorem claim9_forward_flow (raw : RawArgs) (w : World) :
    collabKinds (main raw w).1 = [] ∨
    collabKinds (main raw w).1 = [.q] ∨
    collabKinds (main raw w).1 = [.q, .u] ∨
    collabKinds (main raw w).1 = [.q, .u, .l] := by
  rcases parse_total raw with ⟨args, h⟩ | h
  · rcases hq : w.queryResult (theQuery args) with m | df
    · right; left
      rw [main_queryFail h hq]
      simp [collabKinds, ckind, preQueryEvents, outerFailEvents, startEv]
    · rcases hu : w.uploadResult args.bucket_name (objectPath args w)
        (to_csv df) with m | u
      · right; right; left
        rw [main_uploadFail h hq hu]
        simp [collabKinds, ckind, preQueryEvents, outerFailEvents,
          queryOkEvents, startEv, collabKinds_warn df]
        intro a ha
        exact ckind_of_warn a ha
      · rcases hl : w.loadResult (loadQueryOf args w) with m | v
        · right; right; right
          rw [main_loadFail h hq (by cases u; exact hu) hl]
          simp [collabKinds, ckind, preQueryEvents, queryOkEvents,
            uploadOkEvents, loadFailEvents, startEv, collabKinds_warn df]
          intro a ha
          exact ckind_of_warn a ha
        · right; right; right
          rw [main_loadOk h hq (by cases u; exact hu) (by cases v; exact hl)]
          simp [collabKinds, ckind, preQueryEvents, queryOkEvents,
            uploadOkEvents, loadOkEvents, startEv, collabKinds_warn df]
          intro a ha
          exact ckind_of_warn a ha
  · left
    rw [main_parseFail w h]
    rfl

/-- Claim C5. A run missing any required configuration value fails before
any query, upload, or load call: the exit code is non-zero and the trace
contains no collaborator call at all. -/
theorem claim5_config_fail_fast (raw : RawArgs) (w : World)
    (h : missingRequired raw) :
    (main raw w).2 ≠ 0 ∧ collabKinds (main raw w).1 = [] := by
  rw [main_parseFail w (parse_of_missing h)]
  exact ⟨by decide, rfl⟩

/-- Witness for `claim5_config_fail_fast` at a concrete invocation with
`--source-project-id` absent. -/
theorem claim5_config_fail_fast_check :
    (main rawMissing wAllOk).2 ≠ 0 ∧
    collabKinds (main rawMissing wAllOk).1 = [] :=
  claim5_config_fail_fast rawMissing wAllOk (Or.inl rfl)

/-- Claim C1, counterexample. The claim says a missing required
command-line flag yields exit code 1; in the code argparse raises
`SystemExit(2)`, which the `except Exception` handler does not catch,
so the process exit code is 2, not 1. -/
theorem claim1_missing_flag_counterexample :
    (main rawMissing wAllOk).2 = 2 ∧ ¬ (main rawMissing wAllOk).2 = 1 := by
  decide

/-- Claim C1, amended. The exit code is 0 on full success and 1 on any
query, upload, or load failure (each such error is logged and converted
to exit code 1 by a handler); but a missing required command-line flag
terminates with the argparse usage exit code 2, not 1. -/
theorem claim1_exit_code_policy (raw : RawArgs) (w : World) :
    (parse_arguments raw = .error (.systemExit 2) → (main raw w).2 = 2) ∧
    (∀ args, parse_arguments raw = .ok args →
      ((∃ m, w.queryResult (theQuery args) = .error m) → (main raw w).2 = 1) ∧
      (∀ df, w.queryResult (theQuery args) = .ok df →
        ((∃ m, w.uploadResult args.bucket_name (objectPath args w)
            (to_csv df) = .error m) → (main raw w).2 = 1) ∧
        (w.uploadResult args.bucket_name (objectPath args w) (to_csv df) =
            .ok () →
          ((∃ m, w.loadResult (loadQueryOf args w) = .error m) →
            (main raw w).2 = 1) ∧
          (w.loadResult (loadQueryOf args w) = .ok () →
            (main raw w).2 = 0)))) := by
  refine ⟨fun h => by rw [main_parseFail w h],
    fun args h => ⟨?_, fun df hq => ⟨?_, fun hu => ⟨?_, fun hl => ?_⟩⟩⟩⟩
  · rintro ⟨m, hq⟩
    rw [main_queryFail h hq]
  · rintro ⟨m, hu⟩
    rw [main_uploadFail h hq hu]
  · rintro ⟨m, hl⟩
    rw [main_loadFail h hq hu hl]
  · rw [main_loadOk h hq hu hl]

/-- Witness for `claim1_exit_code_policy`: all five scenarios at
concrete inputs. -/
theorem claim1_exit_code_policy_check :
    (main rawMissing wAllOk).2 = 2 ∧
    (main raw0 wQueryFail).2 = 1 ∧
    (main raw0 wUploadFail).2 = 1 ∧
    (main raw0 wLoadFail).2 = 1 ∧
    (main raw0 wAllOk).2 = 0 := by
  refine ⟨(claim1_exit_code_policy rawMissing wAllOk).1 rfl, ?_, ?_, ?_, ?_⟩
  · exact ((claim1_exit_code_policy raw0 wQueryFail).2 args0 rfl).1
      ⟨"query failed", rfl⟩
  · exact (((claim1_exit_code_policy raw0 wUploadFail).2 args0 rfl).2 df0
      rfl).1 ⟨"upload failed", rfl⟩
  · exact ((((claim1_exit_code_policy raw0 wLoadFail).2 args0 rfl).2 df0
      rfl).2 rfl).1 ⟨"load failed", rfl⟩
  · exact ((((claim1_exit_code_policy raw0 wAllOk).2 args0 rfl).2 df0
      rfl).2 rfl).2 rfl

/-- Claim C2. For every non-empty filter string, the generated SQL equals
the no-filter SQL with an appended `WHERE <filter>` clause, the filter
interpolated verbatim with no escaping; for an empty filter string the
generated SQL contains no `WHERE` (given that the interpolated project,
dataset and table identifiers contain none). -/
theorem claim2_filter_sql (sp dn oft qf : String)
    (h1 : occursIn whereChars sp.data = false)
    (h2 : occursIn whereChars dn.data = false)
    (h3 : occursIn whereChars oft.data = false) :
    (qf ≠ "" → buildQuery sp dn oft qf =
      buildQuery sp dn oft "" ++ "WHERE " ++ qf ++ "\n            ") ∧
    occursIn whereChars (buildQuery sp dn oft "").data = false :=
  ⟨fun h => buildQuery_append_filter sp dn oft qf h,
   buildQuery_noWhere sp dn oft h1 h2 h3⟩

/-- Witness for `claim2_filter_sql` at the concrete configuration of the
spec's end-to-end scenario. -/
theorem claim2_filter_sql_check :
    buildQuery "proj" "sales" "export" "region = US" =
      buildQuery "proj" "sales" "export" "" ++ "WHERE " ++ "region = US" ++
        "\n            " ∧
    occursIn whereChars (buildQuery "proj" "sales" "export" "").data = false :=
  ⟨(claim2_filter_sql "proj" "sales" "export" "region = US" (by decide)
      (by decide) (by decide)).1 (by decide),
   (claim2_filter_sql "proj" "sales" "export" "region = US" (by decide)
      (by decide) (by decide)).2⟩

/-- Claim C4. The object path is computed once from the single wall-clock
snapshot: it equals `{dataset}/{outputType}/{outputType}_<ts>.csv` with
`<ts>` the `YYYYMMDD_HHMMSS` rendering of the snapshot, and every upload
call and every load-job statement of the run uses that same path string
unchanged. -/
theorem claim4_object_path (raw : RawArgs) (w : World) (args : Args)
    (h : parse_arguments raw = .ok args) :
    objectPath args w = args.dataset_name ++ "/" ++ args.output_file_type ++
      "/" ++ args.output_file_type ++ "_" ++ strftimeNow w.now ++ ".csv" ∧
    tsShape (strftimeNow w.now).data = true ∧
    (∀ b p d c, Event.uploadCall b p d c ∈ (main raw w).1 →
      p = objectPath args w) ∧
    (∀ s loc, Event.loadSubmit s loc ∈ (main raw w).1 →
      s = buildLoadStatement args.destination_project_id args.dataset_name
        args.output_file_type args.bucket_name (objectPath args w)) := by
  refine ⟨rfl, tsShape_strftime w.now, ?_, ?_⟩
  · intro b p d c hm
    exact (uploadCall_mem h hm).2
  · intro s loc hm
    exact (loadSubmit_mem h hm).1

set_option maxRecDepth 8000 in
/-- Witness for `claim4_object_path` on a concrete successful run. -/
theorem claim4_object_path_check :
    objectPath args0 wAllOk = args0.dataset_name ++ "/" ++
      args0.output_file_type ++ "/" ++ args0.output_file_type ++ "_" ++
      strftimeNow wAllOk.now ++ ".csv" ∧
    tsShape (strftimeNow wAllOk.now).data = true ∧
    ("sales/export/export_20261012_093000.csv" : String) =
      objectPath args0 wAllOk ∧
    loadQueryOf args0 wAllOk = buildLoadStatement args0.destination_project_id
      args0.dataset_name args0.output_file_type args0.bucket_name
      (objectPath args0 wAllOk) := by
  have h4 := claim4_object_path raw0 wAllOk args0 rfl
  refine ⟨h4.1, h4.2.1, ?_, ?_⟩
  · exact h4.2.2.1 "bkt" "sales/export/export_20261012_093000.csv"
      (to_csv df0) "text/csv" (by decide)
  · exact h4.2.2.2 (loadQueryOf args0 wAllOk) "us-central1" (by decide)

/-- Claim C7. Every load statement submitted in any run is exactly the
`LOAD DATA OVERWRITE ... FROM FILES (format = CSV, uris = [gs://...])`
template over the destination project, dataset, output type, bucket and
object path of the run, and it is submitted with the single fixed
execution region `us-central1`. -/
theorem claim7_load_statement (raw : RawArgs) (w : World) (args : Args)
    (h : parse_arguments raw = .ok args) :
    ∀ s loc, Event.loadSubmit s loc ∈ (main raw w).1 →
      s = "\n            LOAD DATA OVERWRITE `" ++
          args.destination_project_id ++ "." ++ args.dataset_name ++ "." ++
          args.output_file_type ++
          "`\n            FROM FILES (\n                format = " ++ sq ++
          "CSV" ++ sq ++ ",\n                uris = [" ++ sq ++ "gs://" ++
          args.bucket_name ++ "/" ++ objectPath args w ++ sq ++
          "]\n            );\n        " ∧
      loc = "us-central1" := by
  intro s loc hm
  rcases loadSubmit_mem h hm with ⟨hs, hl⟩
  exact ⟨hs, hl⟩

set_option maxRecDepth 8000 in
/-- Witness for `claim7_load_statement` on a concrete run that reaches
the load stage. -/
theorem claim7_load_statement_check :
    loadQueryOf args0 wAllOk =
      "\n            LOAD DATA OVERWRITE `" ++
        args0.destination_project_id ++ "." ++ args0.dataset_name ++ "." ++
        args0.output_file_type ++
        "`\n            FROM FILES (\n                format = " ++ sq ++
        "CSV" ++ sq ++ ",\n                uris = [" ++ sq ++ "gs://" ++
        args0.bucket_name ++ "/" ++ objectPath args0 wAllOk ++ sq ++
        "]\n            );\n        " ∧
    ("us-central1" : String) = "us-central1" :=
  claim7_load_statement raw0 wAllOk args0 rfl (loadQueryOf args0 wAllOk)
    "us-central1" (by decide)

/-- Claim C6. A query returning zero rows is not a failure: the run logs a
warning and proceeds to the upload, and the CSV serialization of the
empty result set is exactly the header line — one newline-terminated
line, no data rows, no index column. -/
theorem claim6_zero_rows (raw : RawArgs) (w : World) (args : Args)
    (df : DataFrame) (h : parse_arguments raw = .ok args)
    (hq : w.queryResult (theQuery args) = .ok df)
    (hrows : df.rows = [])
    (hcols : ∀ c ∈ df.columns, c.data.count '\n' = 0) :
    to_csv df = commaJoin df.columns ++ "\n" ∧
    (to_csv df).data.count '\n' = 1 ∧
    Event.log .warning "Query returned 0 rows - proceeding with empty dataset"
      ∈ (main raw w).1 ∧
    Event.uploadCall args.bucket_name (objectPath args w) (to_csv df)
      "text/csv" ∈ (main raw w).1 := by
  have hlen : df.rows.length = 0 := by rw [hrows]; rfl
  have hwarn : Event.log .warning
      "Query returned 0 rows - proceeding with empty dataset"
      ∈ warnEvents df := mem_warnEvents_iff.2 ⟨hlen, rfl⟩
  have hq2 : Event.log .warning
      "Query returned 0 rows - proceeding with empty dataset"
      ∈ queryOkEvents args w df := by
    unfold queryOkEvents
    exact List.mem_append.2 (Or.inl (List.mem_append.2 (Or.inr hwarn)))
  have hmem : Event.log .warning
      "Query returned 0 rows - proceeding with empty dataset"
      ∈ (main raw w).1 ∧
      Event.uploadCall args.bucket_name (objectPath args w) (to_csv df)
        "text/csv" ∈ (main raw w).1 := by
    rcases hu : w.uploadResult args.bucket_name (objectPath args w)
      (to_csv df) with m | u
    · rw [main_uploadFail h hq hu]
      constructor
      · exact List.mem_cons_of_mem _ (List.mem_append_left _
          (List.mem_append_right _ hq2))
      · simp [queryOkEvents]
    · rcases hl : w.loadResult (loadQueryOf args w) with m | v
      · rw [main_loadFail h hq (by cases u; exact hu) hl]
        constructor
        · exact List.mem_cons_of_mem _ (List.mem_append_left _
            (List.mem_append_left _ (List.mem_append_right _ hq2)))
        · simp [queryOkEvents]
      · rw [main_loadOk h hq (by cases u; exact hu) (by cases v; exact hl)]
        constructor
        · exact List.mem_cons_of_mem _ (List.mem_append_left _
            (List.mem_append_left _ (List.mem_append_right _ hq2)))
        · simp [queryOkEvents]
  exact ⟨to_csv_empty df hrows, to_csv_empty_nl df hrows hcols,
    hmem.1, hmem.2⟩

/-- Witness for `claim6_zero_rows` on a concrete zero-row run. -/
theorem claim6_zero_rows_check :
    to_csv dfEmpty = commaJoin dfEmpty.columns ++ "\n" ∧
    (to_csv dfEmpty).data.count '\n' = 1 ∧
    Event.log .warning "Query returned 0 rows - proceeding with empty dataset"
      ∈ (main raw0 wEmptyOk).1 ∧
    Event.uploadCall args0.bucket_name (objectPath args0 wEmptyOk)
      (to_csv dfEmpty) "text/csv" ∈ (main raw0 wEmptyOk).1 :=
  claim6_zero_rows raw0 wEmptyOk args0 dfEmpty rfl rfl rfl (by decide)

/-- Claim C3, counterexample. The claim says the top-level run is not
guarded, so a query failure propagates as an unhandled fault; in the
code the `try`/`except Exception` of lines 48/161–164 is active: on a
concrete query failure the error is caught, logged by the outer handler,
and converted to exit code 1. -/
theorem claim3_unguarded_counterexample :
    (main raw0 wQueryFail).2 = 1 ∧
    Event.log .error ("Script failed with error: " ++ "query failed")
      ∈ (main raw0 wQueryFail).1 ∧
    Event.log .error "Full exception traceback:"
      ∈ (main raw0 wQueryFail).1 := by
  decide

/-- Claim C3, amended. The top-level run IS guarded by an active error
boundary: a failure in the query or upload stage is caught by the outer
`except Exception` handler, logged with a full traceback, and converted
to exit code 1 (it does not propagate as an unhandled fault). -/
theorem claim3_top_level_guard (raw : RawArgs) (w : World) (args : Args)
    (h : parse_arguments raw = .ok args) :
    (∀ m, w.queryResult (theQuery args) = .error m →
      (main raw w).2 = 1 ∧
      (main raw w).1 = startEv ::
        (preQueryEvents args w ++ outerFailEvents m)) ∧
    (∀ df m, w.queryResult (theQuery args) = .ok df →
      w.uploadResult args.bucket_name (objectPath args w) (to_csv df) =
        .error m →
      (main raw w).2 = 1 ∧
      (main raw w).1 = startEv :: ((preQueryEvents args w ++
        queryOkEvents args w df) ++ outerFailEvents m)) := by
  constructor
  · intro m hm
    rw [main_queryFail h hm]
    exact ⟨rfl, rfl⟩
  · intro df m hdf hm
    rw [main_uploadFail h hdf hm]
    exact ⟨rfl, rfl⟩

/-- Witness for `claim3_top_level_guard` at concrete query-stage and
upload-stage failures. -/
theorem claim3_top_level_guard_check :
    (main raw0 wQueryFail).2 = 1 ∧
    (main raw0 wQueryFail).1 = startEv ::
      (preQueryEvents args0 wQueryFail ++ outerFailEvents "query failed") ∧
    (main raw0 wUploadFail).2 = 1 ∧
    (main raw0 wUploadFail).1 = startEv :: ((preQueryEvents args0 wUploadFail
      ++ queryOkEvents args0 wUploadFail df0) ++
      outerFailEvents "upload failed") := by
  have h1 := (claim3_top_level_guard raw0 wQueryFail args0 rfl).1
    "query failed" rfl
  have h2 := (claim3_top_level_guard raw0 wUploadFail args0 rfl).2 df0
    "upload failed" rfl rfl
  exact ⟨h1.1, h1.2, h2.1, h2.2⟩

/-- Claim C8. If the load job reaches a failed terminal state or the poll
itself raises, the run logs the condition as critical (the two
ERROR-level lines of the inner handler), terminates with exit code 1,
submits the load job exactly once (no retry, no rollback), and never
asserts in the log that the overwrite succeeded. -/
theorem claim8_load_failure (raw : RawArgs) (w : World) (args : Args)
    (df : DataFrame) (m : String)
    (h : parse_arguments raw = .ok args)
    (hq : w.queryResult (theQuery args) = .ok df)
    (hu : w.uploadResult args.bucket_name (objectPath args w) (to_csv df) =
      .ok ())
    (hl : w.loadResult (loadQueryOf args w) = .error m) :
    (main raw w).2 = 1 ∧
    (main raw w).1 = startEv :: (preQueryEvents args w ++
      queryOkEvents args w df ++ uploadOkEvents args w ++ loadFailEvents m) ∧
    Event.log .error ("CRITICAL: Final load query failed: " ++ m)
      ∈ (main raw w).1 ∧
    Event.log .error "Script execution failed due to final query failure"
      ∈ (main raw w).1 ∧
    (main raw w).1.filter isLoadSubmit =
      [Event.loadSubmit (loadQueryOf args w) "us-central1"] ∧
    (main raw w).1.filter assertsLoadSuccess = [] := by
  have htr := main_loadFail h hq hu hl
  have htrace : (main raw w).1 = startEv :: (preQueryEvents args w ++
      queryOkEvents args w df ++ uploadOkEvents args w ++ loadFailEvents m) :=
    by rw [htr]
  have hcode : (main raw w).2 = 1 := by rw [htr]
  refine ⟨hcode, htrace, ?_, ?_, ?_, ?_⟩
  · rw [htrace]
    simp [loadFailEvents]
  · rw [htrace]
    simp [loadFailEvents]
  · rw [htrace]
    rw [show startEv :: (preQueryEvents args w ++ queryOkEvents args w df ++
      uploadOkEvents args w ++ loadFailEvents m) = [startEv] ++
      (preQueryEvents args w ++ queryOkEvents args w df ++
        uploadOkEvents args w ++ loadFailEvents m) from rfl]
    rw [List.filter_append, List.filter_append, List.filter_append,
      List.filter_append]
    rw [subm_pre args w, subm_qok args w df, subm_upok args w, subm_fail m]
    rfl
  · rw [htrace]
    rw [show startEv :: (preQueryEvents args w ++ queryOkEvents args w df ++
      uploadOkEvents args w ++ loadFailEvents m) = [startEv] ++
      (preQueryEvents args w ++ queryOkEvents args w df ++
        uploadOkEvents args w ++ loadFailEvents m) from rfl]
    rw [List.filter_append, List.filter_append, List.filter_append,
      List.filter_append]
    rw [als_pre args w, als_qok args w df, als_upok args w, als_fail m]
    rfl

/-- Witness for `claim8_load_failure` at a concrete failed load job. -/
theorem claim8_load_failure_check :
    (main raw0 wLoadFail).2 = 1 ∧
    (main raw0 wLoadFail).1 = startEv :: (preQueryEvents args0 wLoadFail ++
      queryOkEvents args0 wLoadFail df0 ++ uploadOkEvents args0 wLoadFail ++
      loadFailEvents "load failed") ∧
    Event.log .error ("CRITICAL: Final load query failed: " ++ "load failed")
      ∈ (main raw0 wLoadFail).1 ∧
    Event.log .error "Script execution failed due to final query failure"
      ∈ (main raw0 wLoadFail).1 ∧
    (main raw0 wLoadFail).1.filter isLoadSubmit =
      [Event.loadSubmit (loadQueryOf args0 wLoadFail) "us-central1"] ∧
    (main raw0 wLoadFail).1.filter assertsLoadSuccess = [] :=
  claim8_load_failure raw0 wLoadFail args0 df0 "load failed" rfl rfl rfl rfl

/-- Claim C10. When the inner handler calls `sys.exit(1)`, the resulting
`SystemExit` passes uncaught through the outer `except Exception`
handler: the process exits with code exactly 1, the run performs exactly
one `sys.exit` call, and the only ERROR-level logs are the inner
handler's two lines — the outer handler adds no second error log and no
second exit. -/
theorem claim10_system_exit_bypass (raw : RawArgs) (w : World) (args : Args)
    (df : DataFrame) (m : String)
    (h : parse_arguments raw = .ok args)
    (hq : w.queryResult (theQuery args) = .ok df)
    (hu : w.uploadResult args.bucket_name (objectPath args w) (to_csv df) =
      .ok ())
    (hl : w.loadResult (loadQueryOf args w) = .error m) :
    (main raw w).2 = 1 ∧
    (main raw w).1.filter isExitCall = [Event.exitCall 1] ∧
    (main raw w).1.filter isErrorLog =
      [Event.log .error ("CRITICAL: Final load query failed: " ++ m),
       Event.log .error
         "Script execution failed due to final query failure"] := by
  have htr := main_loadFail h hq hu hl
  have htrace : (main raw w).1 = startEv :: (preQueryEvents args w ++
      queryOkEvents args w df ++ uploadOkEvents args w ++ loadFailEvents m) :=
    by rw [htr]
  refine ⟨by rw [htr], ?_, ?_⟩
  · rw [htrace]
    rw [show startEv :: (preQueryEvents args w ++ queryOkEvents args w df ++
      uploadOkEvents args w ++ loadFailEvents m) = [startEv] ++
      (preQueryEvents args w ++ queryOkEvents args w df ++
        uploadOkEvents args w ++ loadFailEvents m) from rfl]
    rw [List.filter_append, List.filter_append, List.filter_append,
      List.filter_append]
    rw [exitc_pre args w, exitc_qok args w df, exitc_upok args w, exitc_fail m]
    rfl
  · rw [htrace]
    rw [show startEv :: (preQueryEvents args w ++ queryOkEvents args w df ++
      uploadOkEvents args w ++ loadFailEvents m) = [startEv] ++
      (preQueryEvents args w ++ queryOkEvents args w df ++
        uploadOkEvents args w ++ loadFailEvents m) from rfl]
    rw [List.filter_append, List.filter_append, List.filter_append,
      List.filter_append]
    rw [errl_pre args w, errl_qok args w df, errl_upok args w, errl_fail m]
    rfl

/-- Witness for `claim10_system_exit_bypass` at a concrete failed load
job. -/
theorem claim10_system_exit_bypass_check :
    (main raw0 wLoadFail).2 = 1 ∧
    (main raw0 wLoadFail).1.filter isExitCall = [Event.exitCall 1] ∧
    (main raw0 wLoadFail).1.filter isErrorLog =
      [Event.log .error ("CRITICAL: Final load query failed: " ++
         "load failed"),
       Event.log .error
         "Script execution failed due to final query failure"] :=
  claim10_system_exit_bypass raw0 wLoadFail args0 df0 "load failed"
    rfl rfl rfl rfl

end RunExport
